import Mathlib

/-!
Shallow embedding of `src/picklebump/core.py` (the Picklebump cog).

The embedding models the bump-cycle scheduler of the cog:

* the bump detector (`BUMP_RE` regex search plus author test, used by
  `wait_for_bump.check` at lines 302-303 and by `on_message` at line 319);
* the `on_message` listener (lines 317-326);
* the `bump` dispatcher coroutine (lines 238-297);
* the `wait_for_bump` coroutine (lines 299-315);
* the `bump_check_loop` scan loop (lines 186-236), with the `while True`
  loop bounded by an explicit fuel parameter;
* the `task_done_callback` done callback (lines 141-148).

Python-specific conventions of the embedding:

* Machine time is `Nat` seconds of UTC; `datetime.now(timezone.utc)` is the
  current value of an explicit clock that advances only at `await`
  suspension points that sleep (`asyncio.sleep`, `wait_for` timeouts).
* Awaited coroutines and tasks run inline (the code awaits every task it
  creates right after creating it, so execution is sequential); side
  effects are recorded in a timestamped trace.
* Fallible Discord calls are driven by an explicit environment `Env`; an
  exception is a `PyError` value, and a function that can raise returns the
  error in an `Option PyError` field (propagation is modelled explicitly at
  each call site, mirroring the `try`/`except` clauses of the source).
* Python name resolution is explicit where it decides behaviour: a name
  used by the source is looked up in the list of names actually bound by
  the module (`moduleNames`, from the import block at lines 26-54 and the
  module-level assignments) and the local scope; a lookup miss is a
  `NameError`.  Word characters for the regex `\b` boundary are modelled
  as ASCII `[A-Za-z0-9_]`.
-/

/-- Discord id of the external Disboard bot (`DISCORD_BOT_ID`, line 60). -/
def DISCORD_BOT_ID : Nat := 302050872383242240

/-- `15 * 60`, the `wait_for` timeout of `wait_for_bump` (line 306). -/
def WAIT_TIMEOUT : Nat := 15 * 60

/-- `2 * 60 * 60`, the bump cooldown used at lines 295 and 324. -/
def BUMP_COOLDOWN : Nat := 2 * 60 * 60

/-- An ASCII word character, the `\w` class underlying the `\b` boundary in
`BUMP_RE` (line 63). -/
def isWordChar (c : Char) : Bool := c.isAlphanum || c = '_'

/-- The literal characters of the trigger pattern `!d bump` (line 63). -/
def triggerChars : List Char := ['!', 'd', ' ', 'b', 'u', 'm', 'p']

/-- `\b` after the trigger: end of string, or a non-word character next. -/
def boundaryAfter : List Char → Bool
  | [] => true
  | c :: _ => !(isWordChar c)

/-- Literal-pattern test: does `l` begin with the characters `p`? -/
def beginsWith : List Char → List Char → Bool
  | [], _ => true
  | _ :: _, [] => false
  | p :: ps, c :: cs => (c == p) && beginsWith ps cs

/-- Does the regex `!d bump\b` match at the very start of `l`? -/
def startsWithTrigger (l : List Char) : Bool :=
  beginsWith triggerChars l && boundaryAfter (l.drop 7)

/-- `BUMP_RE.search` on a character list: does `!d bump\b` match at any
position? -/
def searchTrigger : List Char → Bool
  | [] => false
  | c :: rest => startsWithTrigger (c :: rest) || searchTrigger rest

/-- `BUMP_RE.search(s)` viewed as a boolean (line 63; the source uses the
returned `Match` object only for its truthiness). -/
def bumpReSearch (s : String) : Bool := searchTrigger s.data

/-- Specification-level reading of the `\b` word boundary, to be compared
with the executable `boundaryAfter`. -/
def WordBoundaryAfter (suf : List Char) : Prop :=
  suf = [] ∨ ∃ c t, suf = c :: t ∧ isWordChar c = false

/-- Specification-level reading of "the body matches the fixed trigger
pattern `!d bump` with a case-sensitive word-boundary match": some
decomposition places the literal trigger characters followed by a word
boundary.  To be compared with the executable `bumpReSearch`. -/
def ContainsTrigger (l : List Char) : Prop :=
  ∃ pre suf, l = pre ++ triggerChars ++ suf ∧ WordBoundaryAfter suf

/-- The fields of a `discord.Message` the core reads. -/
structure Message where
  authorId : Nat
  content : String
  channelId : Nat
deriving DecidableEq

/-- The bump detector: the condition of `on_message` (line 319), also the
body of `check` inside `wait_for_bump` (lines 302-303). -/
def check (m : Message) : Bool :=
  m.authorId == DISCORD_BOT_ID && bumpReSearch m.content

/-- `allowed_mentions` values the source constructs:
`discord.AllowedMentions.none()` (line 266) and
`discord.AllowedMentions(users=[member])` (line 289). -/
inductive Mentions where
  | none
  | users (ids : List Nat)
deriving DecidableEq

/-- Observable side effects of the embedded code. -/
inductive Effect where
  | logInfo
  | logWarning
  | logTaskFailed
  | sleep (seconds : Nat)
  | addReaction (channelId : Nat) (emoji : String)
  | sendChannel (channelId : Nat) (content : String) (mentions : Mentions)
  | sendMember (memberId : Nat) (mentions : Mentions)
  | registerTask (guildId : Nat) (slot : String) (taskId : Nat)
  | taskStart (guildId : Nat) (slot : String)
  | taskEnd (guildId : Nat) (slot : String)
  | cancelTask (taskId : Nat)
  | persistNextBump (guildId : Nat) (fireAt : Nat)
deriving DecidableEq

/-- `on_message` (lines 317-326): on a detected bump confirmation it logs,
sleeps two hours, logs again and adds a reaction; otherwise it does
nothing.  It touches neither the config nor `bump_tasks`. -/
def on_message (m : Message) : List Effect :=
  if check m then
    [Effect.logInfo, Effect.sleep BUMP_COOLDOWN, Effect.logInfo,
      Effect.addReaction m.channelId "🍆"]
  else []

/-- Names bound at module level of `src/picklebump/core.py`: the import
block (lines 26-54) and the module-level assignments (lines 56-70, 73,
363).  Note that line 30 (`from datetime import datetime, timezone`)
imports `datetime` and `timezone` but not `timedelta`. -/
def moduleNames : List String :=
  ["asyncio", "logging", "re", "defaultdict", "datetime", "timezone",
   "Any", "Coroutine", "DefaultDict", "Dict", "Final", "List", "Literal",
   "Match", "Optional", "Pattern", "TypeAlias", "Union", "discord", "tse",
   "Config", "commands", "Red", "AsyncIter", "box", "FuzzyRole",
   "LocalizedMessageValidator", "log", "RequestType", "DISCORD_BOT_ID",
   "LOCK_REASON", "MENTION_RE", "BUMP_RE", "DEFAULT_GUILD_MESSAGE",
   "DEFAULT_GUILD_THANKYOU_MESSAGE", "Picklebump", "setup"]

/-- Local names bound inside the `bump` coroutine (lines 238-297): its
parameters and the names assigned in its body. -/
def bumpLocalNames : List String :=
  ["self", "guild_id", "channel", "role", "message", "ty_message",
   "bump_message", "bump_task", "member", "next_bump"]

/-- Python name resolution inside `bump`: a name resolves iff it is a local
of `bump` or a module-level name (the enclosing class body does not form a
scope for name lookup in Python). -/
def inBumpScope (n : String) : Bool :=
  bumpLocalNames.contains n || moduleNames.contains n

/-- The exceptions the embedded code can raise or catch. -/
inductive PyError where
  | nameError (n : String)
  | forbidden
  | httpException
deriving DecidableEq

/-- Line 291: `except (discord.Forbidden, discord.HTTPException)` — the
set of exceptions the per-member thank-you `try` swallows. -/
def dmCaught : PyError → Bool
  | PyError.forbidden => true
  | PyError.httpException => true
  | _ => false

/-- Per-guild persisted configuration (`register_guild` defaults at lines
88-96; `message` and `ty_message` are opaque template strings). -/
structure GuildData where
  channel : Option Nat
  role : Option Nat
  message : String
  ty_message : String
  next_bump : Option Nat
  lock : Bool
  clean : Bool
deriving DecidableEq

/-- The Discord collaborators (`bot`, channels, roles, members) as seen by
one run of the scheduler. -/
structure Env where
  /-- `bot.get_channel(channel_id)` resolves (line 203). -/
  getChannel : Nat → Bool
  /-- `channel.guild.get_role(role_id)` resolves (line 213). -/
  getRole : Nat → Bool
  /-- `channel.permissions_for(channel.guild.me).send_messages` (line 246). -/
  canSend : Nat → Bool
  /-- Outcome of `channel.send` (line 265): `none` means delivered. -/
  sendOutcome : Nat → Option PyError
  /-- Seconds until a message passing `check` reaches `bot.wait_for`
  (line 306); `none` means no such message ever arrives. -/
  confirmDelay : Option Nat
  /-- `role.members` (line 284). -/
  roleMembers : Nat → List Nat
  /-- Outcome of `member.send` (line 287): `none` means delivered. -/
  dmOutcome : Nat → Option PyError

/-- In-memory cog state: the persistent store snapshot (`config`, an
association list over guild ids) and the `bump_tasks` registry
(`DefaultDict[int, Dict[str, asyncio.Task]]`, line 100, modelled as an
association list keyed by `(guild_id, slot)` with a fresh-task-id
counter). -/
structure CogState where
  guilds : List (Nat × GuildData)
  bump_tasks : List ((Nat × String) × Nat)
  nextTaskId : Nat
deriving DecidableEq

/-- Dictionary write `d[k] = v` on an association list: overwrite the
existing entry for `k` or append a new one.  This is all that
`self.bump_tasks[guild_id][slot] = task` does (lines 230 and 279): no
cancellation of the task previously stored under the key. -/
def setTask (l : List ((Nat × String) × Nat)) (k : Nat × String) (v : Nat) :
    List ((Nat × String) × Nat) :=
  match l with
  | [] => [(k, v)]
  | (k0, v0) :: rest =>
    if k0 = k then (k, v) :: rest else (k0, v0) :: setTask rest k v

/-- Dictionary read `d.get(k)` on the `bump_tasks` association list. -/
def lookupTask (l : List ((Nat × String) × Nat)) (k : Nat × String) :
    Option Nat :=
  match l with
  | [] => none
  | (k0, v0) :: rest => if k0 = k then some v0 else lookupTask rest k

/-- `config.guild_from_id(guild_id).next_bump.set(t)` (line 296) on the
store snapshot. -/
def setNextBump (l : List (Nat × GuildData)) (guildId : Nat) (t : Nat) :
    List (Nat × GuildData) :=
  match l with
  | [] => []
  | (g0, d0) :: rest =>
    if g0 = guildId then (g0, { d0 with next_bump := some t }) :: rest
    else (g0, d0) :: setNextBump rest guildId t

/-- Result of running a piece of the scheduler: the timestamped effect
trace, the cog state after it, the clock after it, and the exception it
raised (`none` when it returned normally). -/
structure Outcome where
  trace : List (Nat × Effect)
  state : CogState
  clock : Nat
  err : Option PyError
deriving DecidableEq

/-- Clock after `wait_for_bump` (lines 299-315) returns: the confirmation
arrives after `confirmDelay` seconds, or `wait_for` times out after
`WAIT_TIMEOUT` seconds (the `TimeoutError` is caught inside). -/
def wait_for_bump_end (env : Env) (now : Nat) : Nat :=
  match env.confirmDelay with
  | some d => if d ≤ WAIT_TIMEOUT then now + d else now + WAIT_TIMEOUT
  | none => now + WAIT_TIMEOUT

/-- Trace of `wait_for_bump`: a warning is logged only on timeout
(lines 307-313). -/
def wait_for_bump_trace (env : Env) (now : Nat) : List (Nat × Effect) :=
  match env.confirmDelay with
  | some d =>
    if d ≤ WAIT_TIMEOUT then []
    else [(now + WAIT_TIMEOUT, Effect.logWarning)]
  | none => [(now + WAIT_TIMEOUT, Effect.logWarning)]

/-- One iteration of the thank-you loop body (lines 286-292).  Python
first evaluates the arguments of `member.send`, which reads the name
`guild` (line 288); only then would the send run, with
`discord.Forbidden` and `discord.HTTPException` swallowed by the
`except` clause.  A `NameError` raised while evaluating the arguments is
inside the `try` block but is not in the caught tuple, so it
propagates. -/
def sendThankyou (env : Env) (member : Nat) : Except PyError (List Effect) :=
  if inBumpScope "guild" then
    match env.dmOutcome member with
    | some e => if dmCaught e then Except.ok [] else Except.error e
    | none => Except.ok [Effect.sendMember member (Mentions.users [member])]
  else Except.error (PyError.nameError "guild")

/-- The thank-you loop over `role.members` (lines 283-292): iterate the
member list in order; an uncaught exception from one iteration aborts the
whole loop. -/
def notifyMembers (env : Env) : List Nat → Except PyError (List Effect)
  | [] => Except.ok []
  | m :: rest =>
    match sendThankyou env m with
    | Except.error e => Except.error e
    | Except.ok es =>
      match notifyMembers env rest with
      | Except.error e => Except.error e
      | Except.ok es2 => Except.ok (es ++ es2)

/-- The `bump` coroutine (lines 238-297), run inline at clock `now`:

* line 246: if the bot cannot send to the channel, log a warning and
  return;
* line 254: `log.info`;
* lines 263-274: send the reminder with `AllowedMentions.none()`;
  `discord.Forbidden` is caught (log, return), any other exception
  propagates;
* lines 276-281: create and register the `wait_for_bump` task under key
  `(guild_id, "wait")`, await it, then `asyncio.sleep(1)`;
* lines 283-292: the thank-you loop (see `notifyMembers`);
* lines 294-296: `next_bump = datetime.now(timezone.utc)`, then
  `next_bump += timedelta(hours=2)` — `timedelta` is resolved in the scope
  of `bump`, raising `NameError` when absent — then persist `next_bump`. -/
def bump (env : Env) (st : CogState) (now : Nat) (guildId : Nat)
    (channelId : Nat) (roleId : Nat) (message : String) : Outcome :=
  if env.canSend channelId = false then
    ⟨[(now, Effect.logWarning)], st, now, none⟩
  else
    match env.sendOutcome channelId with
    | some PyError.forbidden =>
      ⟨[(now, Effect.logInfo), (now, Effect.logWarning)], st, now, none⟩
    | some e => ⟨[(now, Effect.logInfo)], st, now, some e⟩
    | none =>
      let wid := st.nextTaskId
      let st1 : CogState :=
        { st with bump_tasks := setTask st.bump_tasks (guildId, "wait") wid,
                  nextTaskId := wid + 1 }
      let now1 := wait_for_bump_end env now
      let now2 := now1 + 1
      let head : List (Nat × Effect) :=
        [(now, Effect.logInfo),
         (now, Effect.sendChannel channelId message Mentions.none),
         (now, Effect.registerTask guildId "wait" wid)]
      let waitSeg : List (Nat × Effect) :=
        (now, Effect.taskStart guildId "wait") ::
          (wait_for_bump_trace env now ++ [(now1, Effect.taskEnd guildId "wait")])
      match notifyMembers env (env.roleMembers roleId) with
      | Except.error e => ⟨head ++ waitSeg, st1, now2, some e⟩
      | Except.ok dmEffects =>
        let dmSeg := dmEffects.map (fun e => (now2, e))
        if inBumpScope "timedelta" then
          let nb := now2 + BUMP_COOLDOWN
          ⟨head ++ waitSeg ++ dmSeg ++ [(now2, Effect.persistNextBump guildId nb)],
            { st1 with guilds := setNextBump st1.guilds guildId nb }, now2, none⟩
        else
          ⟨head ++ waitSeg ++ dmSeg, st1, now2,
            some (PyError.nameError "timedelta")⟩

/-- Lines 227-233 of `bump_check_loop`: create the bump task, register it
under `(guild_id, "bump")` (a plain dictionary write, no cancellation),
await it — so an exception it raises re-raises here — and on normal return
`asyncio.sleep(1)`. -/
def dispatchBump (env : Env) (st : CogState) (now : Nat) (guildId : Nat)
    (channelId : Nat) (roleId : Nat) (message : String) : Outcome :=
  let bid := st.nextTaskId
  let st1 : CogState :=
    { st with bump_tasks := setTask st.bump_tasks (guildId, "bump") bid,
              nextTaskId := bid + 1 }
  let o := bump env st1 now guildId channelId roleId message
  let evs : List (Nat × Effect) :=
    (now, Effect.registerTask guildId "bump" bid) ::
      (now, Effect.taskStart guildId "bump") ::
        (o.trace ++ [(o.clock, Effect.taskEnd guildId "bump")])
  match o.err with
  | some e => ⟨evs, o.state, o.clock, some e⟩
  | none => ⟨evs ++ [(o.clock, Effect.sleep 1)], o.state, o.clock + 1, none⟩

/-- Truthiness-and-resolution test for the configured role (lines
212-222): `role` is the resolved `get_role(role_id)` when `role_id` is
truthy, else `None`; the guild is processed further only if `role` is
truthy. -/
def roleResolves (env : Env) (g : GuildData) : Bool :=
  match g.role with
  | none => false
  | some roleId => roleId != 0 && env.getRole roleId

/-- One guild of the scan (lines 192-236):

* line 192: a falsy `guild_id` (or empty data) is skipped;
* line 200: a falsy `channel` id is skipped;
* lines 203-210: an unresolvable channel logs a warning and is skipped;
* lines 212-222: a missing or unresolvable role logs a warning and is
  skipped;
* lines 224-233: a `next_bump` that is `None` or not in the future
  dispatches a bump immediately;
* lines 235-236: otherwise sleep until `next_bump`. -/
def processGuild (env : Env) (st : CogState) (now : Nat) (guildId : Nat)
    (g : GuildData) : Outcome :=
  if guildId = 0 then ⟨[], st, now, none⟩
  else
    match g.channel with
    | none => ⟨[], st, now, none⟩
    | some channelId =>
      if channelId = 0 then ⟨[], st, now, none⟩
      else if env.getChannel channelId = false then
        ⟨[(now, Effect.logWarning)], st, now, none⟩
      else if roleResolves env g = false then
        ⟨[(now, Effect.logWarning)], st, now, none⟩
      else
        let roleId := g.role.getD 0
        match g.next_bump with
        | none => dispatchBump env st now guildId channelId roleId g.message
        | some nb =>
          if nb ≤ now then
            dispatchBump env st now guildId channelId roleId g.message
          else ⟨[(now, Effect.sleep (nb - now))], st, nb, none⟩

/-- The `async for` over the `all_guilds()` snapshot (lines 189-236): each
guild is processed in turn; an exception re-raised by `await bump_task`
aborts the iteration (and the surrounding `while True`), leaving the
remaining guilds unprocessed. -/
def passGuilds (env : Env) :
    List (Nat × GuildData) → CogState → Nat → Outcome
  | [], st, now => ⟨[], st, now, none⟩
  | (gid, g) :: rest, st, now =>
    let o := processGuild env st now gid g
    match o.err with
    | some _ => o
    | none =>
      let o2 := passGuilds env rest o.state o.clock
      ⟨o.trace ++ o2.trace, o2.state, o2.clock, o2.err⟩

/-- The `while True` loop of `bump_check_loop` (lines 188-236), bounded by
fuel: each pass re-reads the `all_guilds()` snapshot from the store and
scans it. -/
def runLoop (env : Env) : Nat → CogState → Nat → Outcome
  | 0, st, now => ⟨[], st, now, none⟩
  | fuel + 1, st, now =>
    let o := passGuilds env st.guilds st now
    match o.err with
    | some _ => o
    | none =>
      let o2 := runLoop env fuel o.state o.clock
      ⟨o.trace ++ o2.trace, o2.state, o2.clock, o2.err⟩

/-- `bump_check_loop` (lines 186-236): `await self.bot.wait_until_ready()`
then the scan loop; `readyAt` is the clock when the ready signal fires. -/
def bump_check_loop (env : Env) (fuel : Nat) (st : CogState) (readyAt : Nat) :
    Outcome :=
  runLoop env fuel st readyAt

/-- How an `asyncio.Task` ends, as seen by its done callback. -/
inductive TaskOutcome where
  | finished
  | cancelled
  | failed (e : PyError)
deriving DecidableEq

/-- `task_done_callback` (lines 141-148): `task.result()` re-raises the
task outcome; `asyncio.CancelledError` is passed over silently, any other
exception is logged, and the callback itself never raises. -/
def task_done_callback : TaskOutcome → List Effect
  | TaskOutcome.finished => []
  | TaskOutcome.cancelled => []
  | TaskOutcome.failed _ => [Effect.logTaskFailed]

/-- Is this effect a `next_bump` write to the store? -/
def isPersistEff : Effect → Bool
  | Effect.persistNextBump _ _ => true
  | _ => false

/-- Is this effect a message sent to a channel? -/
def isSendChannelEff : Effect → Bool
  | Effect.sendChannel _ _ _ => true
  | _ => false

/-- Is this effect a message sent to the given channel? -/
def sendsToChannel (c : Nat) : Effect → Bool
  | Effect.sendChannel c0 _ _ => c0 == c
  | _ => false

/-- Is this effect a task cancellation? -/
def isCancelEff : Effect → Bool
  | Effect.cancelTask _ => true
  | _ => false

/-- Is this effect a registration of a task under the given key? -/
def isRegisterFor (k : Nat × String) : Effect → Bool
  | Effect.registerTask g s _ => (g, s) == k
  | _ => false

/-- Is this effect the start of a task under the given key? -/
def isTaskStartFor (k : Nat × String) : Effect → Bool
  | Effect.taskStart g s => (g, s) == k
  | _ => false

/-- Is this effect a task start or end event? -/
def isTaskEvent : Effect → Bool
  | Effect.taskStart _ _ => true
  | Effect.taskEnd _ _ => true
  | _ => false

/-- Does this channel send suppress all mentions?  (Non-sends and direct
member messages are unconstrained.) -/
def channelMentionsOk : Effect → Bool
  | Effect.sendChannel _ _ Mentions.none => true
  | Effect.sendChannel _ _ (Mentions.users _) => false
  | _ => true

/-- Every channel send in the trace suppresses all mentions. -/
def traceMentionsOk (tr : List (Nat × Effect)) : Bool :=
  tr.all fun p => channelMentionsOk p.2

/-- Timestamp of the first channel send in a trace, if any. -/
def firstSendTime : List (Nat × Effect) → Option Nat
  | [] => none
  | (t, e) :: rest => if isSendChannelEff e then some t else firstSendTime rest

/-- Contribution of one effect to the number of live tasks under key `k`:
a task under `k` starting counts `+1`, one ending counts `-1`. -/
def taskDelta (k : Nat × String) : Effect → Int
  | Effect.taskStart g s => if (g, s) = k then 1 else 0
  | Effect.taskEnd g s => if (g, s) = k then -1 else 0
  | _ => 0

/-- Net number of tasks under key `k` still live at the end of a trace. -/
def liveCount (k : Nat × String) (tr : List (Nat × Effect)) : Int :=
  (tr.map fun p => taskDelta k p.2).sum

/-- Scanning the trace with `cur` tasks under key `k` initially live, the
number of live tasks under `k` stays in `{0, 1}` at every instant. -/
def liveOk (k : Nat × String) (cur : Int) : List (Nat × Effect) → Bool
  | [] => true
  | p :: rest =>
    let c := cur + taskDelta k p.2
    (c == 0 || c == 1) && liveOk k c rest

/-- A trace is balanced for key `k`: scanning from zero live tasks under
`k`, the live count stays in `{0, 1}` at every instant and returns to zero
at the end. -/
def KeyBalanced (k : Nat × String) (tr : List (Nat × Effect)) : Prop :=
  liveOk k 0 tr = true ∧ liveCount k tr = 0

/-- A guild-data record with given channel, role and `next_bump`, default
flags and opaque template strings. -/
def mkGuildData (c r nb : Option Nat) : GuildData :=
  ⟨c, r, "reminder", "thanks", nb, false, false⟩

/-- A cog state with the given store snapshot, an empty task registry and
fresh task counter 0, as after `__init__`. -/
def mkState (gs : List (Nat × GuildData)) : CogState := ⟨gs, [], 0⟩

/-- A fully healthy Discord environment: every channel and role resolves,
sends are permitted and succeed, the Disboard confirmation arrives after
60 seconds, the role has no members, direct messages succeed. -/
def envOk : Env :=
  ⟨fun _ => true, fun _ => true, fun _ => true, fun _ => none,
    some 60, fun _ => [], fun _ => none⟩

/-- Like `envOk`, but the bot lacks send permission everywhere. -/
def envNoSend : Env :=
  ⟨fun _ => true, fun _ => true, fun _ => false, fun _ => none,
    some 60, fun _ => [], fun _ => none⟩

/-- Like `envOk`, but `channel.send` on channel 1 raises
`discord.HTTPException` (an exception the `bump` coroutine does not
catch); channel 2 works. -/
def envSendFails1 : Env :=
  ⟨fun _ => true, fun _ => true, fun _ => true,
    fun c => if c = 1 then some PyError.httpException else none,
    some 60, fun _ => [], fun _ => none⟩

/-- Like `envOk`, but the role has five members and member 3 has direct
messages disabled (`member.send` raises `discord.Forbidden`). -/
def envDmBlocked3 : Env :=
  ⟨fun _ => true, fun _ => true, fun _ => true, fun _ => none,
    some 60, fun _ => [1, 2, 3, 4, 5],
    fun m => if m = 3 then some PyError.forbidden else none⟩

/-! ### The bump detector -/

theorem beginsWith_iff (p l : List Char) :
    beginsWith p l = true ↔ ∃ suf, l = p ++ suf := by
  induction p generalizing l with
  | nil => simp [beginsWith]
  | cons a ps ih =>
    cases l with
    | nil => simp [beginsWith]
    | cons c cs =>
      simp only [beginsWith, Bool.and_eq_true, beq_iff_eq, ih, List.cons_append]
      constructor
      · rintro ⟨rfl, suf, rfl⟩
        exact ⟨suf, rfl⟩
      · rintro ⟨suf, h⟩
        injection h with h1 h2
        exact ⟨h1, suf, h2⟩

theorem boundaryAfter_iff (suf : List Char) :
    boundaryAfter suf = true ↔ WordBoundaryAfter suf := by
  cases suf with
  | nil => simp [boundaryAfter, WordBoundaryAfter]
  | cons c t => simp [boundaryAfter, WordBoundaryAfter]

theorem drop_trigger (suf : List Char) :
    (triggerChars ++ suf).drop 7 = suf := by
  have h7 : triggerChars.length = 7 := rfl
  rw [← h7, List.drop_left]

theorem startsWithTrigger_iff (l : List Char) :
    startsWithTrigger l = true ↔
      ∃ suf, l = triggerChars ++ suf ∧ WordBoundaryAfter suf := by
  simp only [startsWithTrigger, Bool.and_eq_true, beginsWith_iff]
  constructor
  · rintro ⟨⟨suf, rfl⟩, hb⟩
    rw [drop_trigger, boundaryAfter_iff] at hb
    exact ⟨suf, rfl, hb⟩
  · rintro ⟨suf, rfl, hb⟩
    rw [drop_trigger, boundaryAfter_iff]
    exact ⟨⟨suf, rfl⟩, hb⟩

theorem searchTrigger_iff (l : List Char) :
    searchTrigger l = true ↔ ContainsTrigger l := by
  induction l with
  | nil =>
    simp only [searchTrigger, ContainsTrigger]
    constructor
    · intro h
      cases h
    · rintro ⟨pre, suf, h, -⟩
      exact absurd h (by simp [triggerChars])
  | cons c cs ih =>
    simp only [searchTrigger, Bool.or_eq_true, ih, startsWithTrigger_iff]
    constructor
    · rintro (⟨suf, h, hb⟩ | ⟨pre, suf, h, hb⟩)
      · exact ⟨[], suf, h, hb⟩
      · exact ⟨c :: pre, suf, by rw [h, List.cons_append, List.cons_append], hb⟩
    · rintro ⟨pre, suf, h, hb⟩
      cases pre with
      | nil =>
        exact Or.inl ⟨suf, by simpa using h, hb⟩
      | cons a pre' =>
        rw [List.cons_append, List.cons_append] at h
        injection h with h1 h2
        exact Or.inr ⟨pre', suf, h2, hb⟩

/-- Claim C8: the bump detector accepts a message iff its author is the
configured external bot id `DISCORD_BOT_ID` and its body matches the
trigger `!d bump` literally (case-sensitively) followed by a word
boundary; and for a message from any other author — in particular a
regular user whose body is exactly `!d bump` — the detector rejects and
the `on_message` listener performs no action at all (no timer or store
change). -/
theorem claim_C8_detector_iff (m : Message) :
    (check m = true ↔
      m.authorId = DISCORD_BOT_ID ∧ ContainsTrigger m.content.data) ∧
    (m.authorId ≠ DISCORD_BOT_ID → check m = false ∧ on_message m = []) := by
  constructor
  · simp only [check, Bool.and_eq_true, beq_iff_eq, bumpReSearch,
      searchTrigger_iff]
  · intro h
    have hc : check m = false := by
      simp [check, h]
    exact ⟨hc, by simp [on_message, hc]⟩

/-- Witness for C8 at a concrete input: a regular user (id 42) sending
exactly `!d bump` is rejected and `on_message` does nothing. -/
theorem claim_C8_witness :
    check ⟨42, "!d bump", 5⟩ = false ∧ on_message ⟨42, "!d bump", 5⟩ = [] :=
  (claim_C8_detector_iff ⟨42, "!d bump", 5⟩).2 (by decide)

/-! ### The `bump` coroutine -/

theorem inBumpScope_guild : inBumpScope "guild" = false := by decide

theorem inBumpScope_timedelta : inBumpScope "timedelta" = false := by decide

theorem sendThankyou_error (env : Env) (m : Nat) :
    sendThankyou env m = Except.error (PyError.nameError "guild") := by
  simp [sendThankyou, inBumpScope_guild]

theorem notifyMembers_nil (env : Env) : notifyMembers env [] = Except.ok [] :=
  rfl

theorem notifyMembers_cons (env : Env) (m : Nat) (rest : List Nat) :
    notifyMembers env (m :: rest) = Except.error (PyError.nameError "guild") := by
  simp [notifyMembers, sendThankyou_error]

theorem wait_for_bump_trace_effects (env : Env) (now : Nat) :
    ∀ p ∈ wait_for_bump_trace env now, p.2 = Effect.logWarning := by
  intro p hp
  unfold wait_for_bump_trace at hp
  cases h : env.confirmDelay with
  | none =>
    rw [h] at hp
    simp at hp
    rw [hp]
  | some d =>
    rw [h] at hp
    by_cases hd : d ≤ WAIT_TIMEOUT
    · simp [hd] at hp
    · simp [hd] at hp
      rw [hp]

theorem bump_trace_effects (env : Env) (st : CogState) (now : Nat)
    (gid cid rid : Nat) (msg : String) :
    ∀ p ∈ (bump env st now gid cid rid msg).trace,
      p.2 = Effect.logInfo ∨ p.2 = Effect.logWarning ∨
      p.2 = Effect.sendChannel cid msg Mentions.none ∨
      p.2 = Effect.registerTask gid "wait" st.nextTaskId ∨
      p.2 = Effect.taskStart gid "wait" ∨
      p.2 = Effect.taskEnd gid "wait" := by
  intro p hp
  unfold bump at hp
  by_cases hcs : env.canSend cid = false
  · simp [hcs] at hp
    rw [hp]
    tauto
  · simp only [hcs, if_false] at hp
    cases hso : env.sendOutcome cid with
    | some e =>
      rw [hso] at hp
      cases e with
      | forbidden =>
        simp at hp
        rcases hp with hp | hp <;> rw [hp] <;> tauto
      | nameError n =>
        simp at hp
        rw [hp]; tauto
      | httpException =>
        simp at hp
        rw [hp]; tauto
    | none =>
      rw [hso] at hp
      cases hrm : env.roleMembers rid with
      | cons m rest =>
        rw [hrm, notifyMembers_cons] at hp
        simp [List.mem_append] at hp
        rcases hp with hp | hp | hp | (hp | hp)
        · rw [hp]; tauto
        · rw [hp]; tauto
        · rw [hp]; tauto
        · rw [hp]; tauto
        · rcases hp with hp | hp
          · have := wait_for_bump_trace_effects env now p hp
            tauto
          · rw [hp]; tauto
      | nil =>
        rw [hrm, notifyMembers_nil] at hp
        simp only [inBumpScope_timedelta, if_false, List.map_nil,
          List.append_nil] at hp
        simp [List.mem_append] at hp
        rcases hp with hp | hp | hp | (hp | hp)
        · rw [hp]; tauto
        · rw [hp]; tauto
        · rw [hp]; tauto
        · rw [hp]; tauto
        · rcases hp with hp | hp
          · have := wait_for_bump_trace_effects env now p hp
            tauto
          · rw [hp]; tauto

/-! ### Predicate lifting over scheduler traces -/

theorem traceAll_bump (Q : Effect → Bool)
    (hinfo : Q Effect.logInfo = true) (hwarn : Q Effect.logWarning = true)
    (hsend : ∀ c m, Q (Effect.sendChannel c m Mentions.none) = true)
    (hreg : ∀ g t, Q (Effect.registerTask g "wait" t) = true)
    (hstart : ∀ g, Q (Effect.taskStart g "wait") = true)
    (hend : ∀ g, Q (Effect.taskEnd g "wait") = true) :
    ∀ env st now gid cid rid msg,
      ((bump env st now gid cid rid msg).trace.all fun p => Q p.2) = true := by
  intro env st now gid cid rid msg
  rw [List.all_eq_true]
  intro p hp
  have h := bump_trace_effects env st now gid cid rid msg p hp
  have hb : Q p.2 = true := by
    rcases h with h | h | h | h | h | h <;> rw [h] <;> solve_by_elim
  simpa using hb

theorem traceAll_dispatchBump (Q : Effect → Bool)
    (hsleep : Q (Effect.sleep 1) = true)
    (hreg : ∀ g t, Q (Effect.registerTask g "bump" t) = true)
    (hstart : ∀ g, Q (Effect.taskStart g "bump") = true)
    (hend : ∀ g, Q (Effect.taskEnd g "bump") = true)
    (hbump : ∀ env st now gid cid rid msg,
      ((bump env st now gid cid rid msg).trace.all fun p => Q p.2) = true) :
    ∀ env st now gid cid rid msg,
      ((dispatchBump env st now gid cid rid msg).trace.all fun p => Q p.2)
        = true := by
  intro env st now gid cid rid msg
  simp only [dispatchBump]
  split <;>
    simp [List.all_cons, List.all_append, List.all_nil, hsleep, hreg, hstart,
      hend, hbump]

theorem traceAll_processGuild (Q : Effect → Bool)
    (hwarn : Q Effect.logWarning = true)
    (hsleepAny : ∀ n, Q (Effect.sleep n) = true)
    (hdisp : ∀ env st now gid cid rid msg,
      ((dispatchBump env st now gid cid rid msg).trace.all fun p => Q p.2)
        = true) :
    ∀ env st now gid g,
      ((processGuild env st now gid g).trace.all fun p => Q p.2) = true := by
  intro env st now gid g
  simp only [processGuild]
  repeat' split
  all_goals simp [List.all_cons, List.all_nil, hwarn, hsleepAny, hdisp]

theorem traceAll_passGuilds (Q : Effect → Bool)
    (hproc : ∀ env st now gid g,
      ((processGuild env st now gid g).trace.all fun p => Q p.2) = true) :
    ∀ env gs st now,
      ((passGuilds env gs st now).trace.all fun p => Q p.2) = true := by
  intro env gs
  induction gs with
  | nil => intro st now; simp [passGuilds]
  | cons hd tl ih =>
    intro st now
    obtain ⟨gid, g⟩ := hd
    simp only [passGuilds]
    split
    · exact hproc env st now gid g
    · simp [List.all_append, hproc, ih]

theorem traceAll_runLoop (Q : Effect → Bool)
    (hpass : ∀ env gs st now,
      ((passGuilds env gs st now).trace.all fun p => Q p.2) = true) :
    ∀ env fuel st now,
      ((runLoop env fuel st now).trace.all fun p => Q p.2) = true := by
  intro env fuel
  induction fuel with
  | zero => intro st now; simp [runLoop]
  | succ n ih =>
    intro st now
    simp only [runLoop]
    split
    · exact hpass env st.guilds st now
    · simp [List.all_append, hpass, ih]

/-! ### Claims C1, C4, C10 -/

/-- Claim C1 (code bug in the source): a detected bump signal never
results in a persisted `next_bump`.  (1) No execution of the `bump`
coroutine — the only place that writes `next_bump` (line 296) — ever emits
a `next_bump` store write: line 295 reads the name `timedelta`, which the
module never binds (line 30 imports only `datetime` and `timezone`), so
the write is unreachable and `bump` raises `NameError` instead.  (2) The
`on_message` listener, which detects the signal at time `t`, arms nothing
at all: it only sleeps and adds a reaction.  (3) Concretely, in a healthy
environment the `bump` coroutine terminates with
`NameError("timedelta")`. -/
theorem claim_C1_no_next_bump_persisted :
    (∀ env st now gid cid rid msg,
      ((bump env st now gid cid rid msg).trace.all
        fun p => !isPersistEff p.2) = true) ∧
    (∀ m : Message, ((on_message m).all fun e => !isPersistEff e) = true) ∧
    (bump envOk (mkState [(1, mkGuildData (some 1) (some 2) (some 50))]) 100
        1 1 2 "reminder").err = some (PyError.nameError "timedelta") := by
  refine ⟨?_, ?_, by decide⟩
  · exact traceAll_bump (fun e => !isPersistEff e) rfl rfl (fun _ _ => rfl)
      (fun _ _ => rfl) (fun _ => rfl) (fun _ => rfl)
  · intro m
    rw [List.all_eq_true]
    intro e he
    unfold on_message at he
    by_cases hc : check m
    · simp [hc] at he
      rcases he with he | he | he | he <;> simp [he, isPersistEff]
    · simp [hc] at he

/-- Claim C4 (code bug in the source): the thank-you batch never reaches
any member.  Building the first direct message evaluates the undefined
name `guild` (line 288), raising `NameError`, which is not in the caught
exception tuple `(Forbidden, HTTPException)` of line 291 and therefore
aborts the whole batch.  Concretely, with five role members of which
member 3 has direct messages disabled, the batch raises
`NameError("guild")` and nobody is notified — rather than the other four
receiving the message as the claim states. -/
theorem claim_C4_thankyou_batch_aborts :
    notifyMembers envDmBlocked3 [1, 2, 3, 4, 5] =
        Except.error (PyError.nameError "guild") ∧
    inBumpScope "guild" = false ∧
    dmCaught PyError.forbidden = true ∧
    dmCaught (PyError.nameError "guild") = false :=
  ⟨notifyMembers_cons _ _ _, inBumpScope_guild, rfl, rfl⟩

/-- Claim C10: every message the scheduler posts to a bump channel — over
any environment, any store contents and any number of scan passes — is
sent with `AllowedMentions.none()`, so the channel reminder never pings
any user, role or everyone. -/
theorem claim_C10_reminder_suppresses_mentions :
    ∀ env fuel st readyAt,
      traceMentionsOk (bump_check_loop env fuel st readyAt).trace = true := by
  intro env fuel st readyAt
  have hb := traceAll_bump channelMentionsOk rfl rfl (fun _ _ => rfl)
    (fun _ _ => rfl) (fun _ => rfl) (fun _ => rfl)
  have hd := traceAll_dispatchBump channelMentionsOk rfl (fun _ _ => rfl)
    (fun _ => rfl) (fun _ => rfl) hb
  have hp := traceAll_processGuild channelMentionsOk rfl (fun _ => rfl) hd
  have hpass := traceAll_passGuilds channelMentionsOk hp
  exact traceAll_runLoop channelMentionsOk hpass env fuel st readyAt

/-! ### Step equations for the scan loop -/

theorem passGuilds_nil (env : Env) (st : CogState) (now : Nat) :
    passGuilds env [] st now = ⟨[], st, now, none⟩ := rfl

theorem passGuilds_cons_err (env : Env) (gid : Nat) (g : GuildData)
    (rest : List (Nat × GuildData)) (st : CogState) (now : Nat) (e : PyError)
    (h : (processGuild env st now gid g).err = some e) :
    passGuilds env ((gid, g) :: rest) st now = processGuild env st now gid g := by
  simp [passGuilds, h]

theorem passGuilds_cons_ok (env : Env) (gid : Nat) (g : GuildData)
    (rest : List (Nat × GuildData)) (st : CogState) (now : Nat)
    (h : (processGuild env st now gid g).err = none) :
    passGuilds env ((gid, g) :: rest) st now =
      ⟨(processGuild env st now gid g).trace ++
          (passGuilds env rest (processGuild env st now gid g).state
            (processGuild env st now gid g).clock).trace,
        (passGuilds env rest (processGuild env st now gid g).state
          (processGuild env st now gid g).clock).state,
        (passGuilds env rest (processGuild env st now gid g).state
          (processGuild env st now gid g).clock).clock,
        (passGuilds env rest (processGuild env st now gid g).state
          (processGuild env st now gid g).clock).err⟩ := by
  simp [passGuilds, h]

theorem runLoop_succ_err (env : Env) (fuel : Nat) (st : CogState) (now : Nat)
    (e : PyError) (h : (passGuilds env st.guilds st now).err = some e) :
    runLoop env (fuel + 1) st now = passGuilds env st.guilds st now := by
  simp [runLoop, h]

theorem runLoop_succ_ok (env : Env) (fuel : Nat) (st : CogState) (now : Nat)
    (h : (passGuilds env st.guilds st now).err = none) :
    runLoop env (fuel + 1) st now =
      ⟨(passGuilds env st.guilds st now).trace ++
          (runLoop env fuel (passGuilds env st.guilds st now).state
            (passGuilds env st.guilds st now).clock).trace,
        (runLoop env fuel (passGuilds env st.guilds st now).state
          (passGuilds env st.guilds st now).clock).state,
        (runLoop env fuel (passGuilds env st.guilds st now).state
          (passGuilds env st.guilds st now).clock).clock,
        (runLoop env fuel (passGuilds env st.guilds st now).state
          (passGuilds env st.guilds st now).clock).err⟩ := by
  simp [runLoop, h]

theorem processGuild_dispatch (env : Env) (st : CogState) (now gid : Nat)
    (g : GuildData) (cid : Nat)
    (hgid : gid ≠ 0) (hc : g.channel = some cid) (hcid : cid ≠ 0)
    (hch : env.getChannel cid = true) (hrole : roleResolves env g = true)
    (hdue : g.next_bump = none ∨ ∃ nb, g.next_bump = some nb ∧ nb ≤ now) :
    processGuild env st now gid g =
      dispatchBump env st now gid cid (g.role.getD 0) g.message := by
  unfold processGuild
  rw [hc]
  rcases hdue with hnb | ⟨nb, hnb, hle⟩
  · simp [hgid, hcid, hch, hrole, hnb]
  · simp [hgid, hcid, hch, hrole, hnb, hle]

theorem processGuild_sleep (env : Env) (st : CogState) (now gid : Nat)
    (g : GuildData) (cid nb : Nat)
    (hgid : gid ≠ 0) (hc : g.channel = some cid) (hcid : cid ≠ 0)
    (hch : env.getChannel cid = true) (hrole : roleResolves env g = true)
    (hnb : g.next_bump = some nb) (hlt : ¬ nb ≤ now) :
    processGuild env st now gid g =
      ⟨[(now, Effect.sleep (nb - now))], st, nb, none⟩ := by
  unfold processGuild
  rw [hc]
  simp [hgid, hcid, hch, hrole, hnb, hlt]

theorem bump_sends (env : Env) (st : CogState) (now gid cid rid : Nat)
    (msg : String) (hcs : env.canSend cid = true)
    (hso : env.sendOutcome cid = none) :
    (now, Effect.sendChannel cid msg Mentions.none) ∈
      (bump env st now gid cid rid msg).trace := by
  unfold bump
  rw [hso]
  cases hrm : env.roleMembers rid with
  | nil =>
    rw [notifyMembers_nil]
    simp [hcs, inBumpScope_timedelta]
  | cons m rest =>
    rw [notifyMembers_cons]
    simp [hcs]

theorem bump_err_isSome (env : Env) (st : CogState) (now gid cid rid : Nat)
    (msg : String) (hcs : env.canSend cid = true)
    (hso : env.sendOutcome cid = none) :
    ∃ e, (bump env st now gid cid rid msg).err = some e := by
  unfold bump
  rw [hso]
  cases hrm : env.roleMembers rid with
  | nil =>
    rw [notifyMembers_nil]
    exact ⟨PyError.nameError "timedelta", by simp [hcs, inBumpScope_timedelta]⟩
  | cons m rest =>
    rw [notifyMembers_cons]
    exact ⟨PyError.nameError "guild", by simp [hcs]⟩

theorem dispatchBump_sends (env : Env) (st : CogState) (now gid cid rid : Nat)
    (msg : String) (hcs : env.canSend cid = true)
    (hso : env.sendOutcome cid = none) :
    (now, Effect.sendChannel cid msg Mentions.none) ∈
      (dispatchBump env st now gid cid rid msg).trace := by
  simp only [dispatchBump]
  split
  · exact List.mem_cons_of_mem _ (List.mem_cons_of_mem _
      (List.mem_append_left _ (bump_sends env _ now gid cid rid msg hcs hso)))
  · exact List.mem_append_left _ (List.mem_cons_of_mem _
      (List.mem_cons_of_mem _
        (List.mem_append_left _ (bump_sends env _ now gid cid rid msg hcs hso))))

theorem dispatchBump_err_isSome (env : Env) (st : CogState)
    (now gid cid rid : Nat) (msg : String) (hcs : env.canSend cid = true)
    (hso : env.sendOutcome cid = none) :
    ∃ e, (dispatchBump env st now gid cid rid msg).err = some e := by
  simp only [dispatchBump]
  obtain ⟨e, he⟩ := bump_err_isSome env
    ⟨st.guilds, setTask st.bump_tasks (gid, "bump") st.nextTaskId,
      st.nextTaskId + 1⟩ now gid cid rid msg hcs hso
  rw [he]
  exact ⟨e, rfl⟩

/-! ### Claims C6 and C9 -/

/-- Counterexample to claim C6 as stated: a guild whose persisted
`next_bump` is `None` but whose channel and role are configured and
resolvable does get a reminder dispatched — the scan of `bump_check_loop`
sends exactly one channel message on its first pass, with no bump signal
ever having occurred. -/
theorem claim_C6_counterexample :
    (mkGuildData (some 1) (some 2) none).next_bump = none ∧
    ((bump_check_loop envOk 1
        (mkState [(1, mkGuildData (some 1) (some 2) none)]) 100).trace.countP
      fun p => isSendChannelEff p.2) = 1 :=
  ⟨rfl, by decide⟩

/-- Claim C6 amended: a persisted `next_bump` of `None` does not mean "no
cycle armed": line 226 (`if not next_bump or now >= next_bump`) treats it
as immediately due, so for every guild with a resolvable configured
channel and role the scan dispatches a bump task at once — and actually
posts the reminder whenever the bot may send and the send succeeds.  Only
guilds missing the channel or the role stay quiet. -/
theorem claim_C6_amended (env : Env) (st : CogState) (now gid cid : Nat)
    (g : GuildData)
    (hgid : gid ≠ 0) (hc : g.channel = some cid) (hcid : cid ≠ 0)
    (hch : env.getChannel cid = true) (hrole : roleResolves env g = true)
    (hnb : g.next_bump = none)
    (hcs : env.canSend cid = true) (hso : env.sendOutcome cid = none) :
    processGuild env st now gid g =
      dispatchBump env st now gid cid (g.role.getD 0) g.message ∧
    (now, Effect.sendChannel cid g.message Mentions.none) ∈
      (processGuild env st now gid g).trace := by
  have hd := processGuild_dispatch env st now gid g cid hgid hc hcid hch hrole
    (Or.inl hnb)
  refine ⟨hd, ?_⟩
  rw [hd]
  exact dispatchBump_sends env st now gid cid _ g.message hcs hso

/-- Witness for the amended C6 at a concrete input. -/
theorem claim_C6_witness :
    processGuild envOk (mkState [(1, mkGuildData (some 1) (some 2) none)]) 100
        1 (mkGuildData (some 1) (some 2) none) =
      dispatchBump envOk (mkState [(1, mkGuildData (some 1) (some 2) none)])
        100 1 1 ((mkGuildData (some 1) (some 2) none).role.getD 0)
        (mkGuildData (some 1) (some 2) none).message ∧
    (100, Effect.sendChannel 1 (mkGuildData (some 1) (some 2) none).message
        Mentions.none) ∈
      (processGuild envOk (mkState [(1, mkGuildData (some 1) (some 2) none)])
        100 1 (mkGuildData (some 1) (some 2) none)).trace :=
  claim_C6_amended envOk (mkState [(1, mkGuildData (some 1) (some 2) none)])
    100 1 1 (mkGuildData (some 1) (some 2) none) (by decide) rfl (by decide)
    rfl rfl rfl rfl rfl

/-- Counterexample to claim C9 as stated: a guild with a configured,
resolvable channel and a due persisted `next_bump` but no configured role
gets no reminder at all — three scan passes produce only the "Cannot find
role" warning each time, never a channel send. -/
theorem claim_C9_counterexample :
    (mkGuildData (some 1) none (some 50)).next_bump = some 50 ∧
    (bump_check_loop envOk 3
        (mkState [(1, mkGuildData (some 1) none (some 50))]) 100).trace =
      [(100, Effect.logWarning), (100, Effect.logWarning),
        (100, Effect.logWarning)] :=
  ⟨rfl, by decide⟩

/-- Claim C9 amended: the role is not optional for dispatch.  Lines
212-222 skip the guild entirely (with a warning) whenever the role is
unset or unresolvable: the scan step leaves the state and clock untouched,
raises nothing, and in particular never reaches the reminder send — the
role gates the whole cycle, not just the thank-you path. -/
theorem claim_C9_amended (env : Env) (st : CogState) (now gid : Nat)
    (g : GuildData) (hrole : roleResolves env g = false) :
    ((processGuild env st now gid g).trace = [] ∨
      (processGuild env st now gid g).trace = [(now, Effect.logWarning)]) ∧
    (processGuild env st now gid g).state = st ∧
    (processGuild env st now gid g).clock = now ∧
    (processGuild env st now gid g).err = none := by
  unfold processGuild
  repeat' split
  all_goals simp_all

/-- Witness for the amended C9 at a concrete input. -/
theorem claim_C9_witness :
    (((processGuild envOk (mkState []) 100 1
        (mkGuildData (some 1) none (some 50))).trace = [] ∨
      (processGuild envOk (mkState []) 100 1
        (mkGuildData (some 1) none (some 50))).trace =
        [(100, Effect.logWarning)])) ∧
    (processGuild envOk (mkState []) 100 1
      (mkGuildData (some 1) none (some 50))).state = mkState [] ∧
    (processGuild envOk (mkState []) 100 1
      (mkGuildData (some 1) none (some 50))).clock = 100 ∧
    (processGuild envOk (mkState []) 100 1
      (mkGuildData (some 1) none (some 50))).err = none :=
  claim_C9_amended envOk (mkState []) 100 1
    (mkGuildData (some 1) none (some 50)) rfl

/-! ### Claims C5 and C3 -/

/-- Counterexample to claim C5 as stated: with a due persisted `next_bump`
and a destination the bot has no permission to post to, the scheduler does
not stop after the aborted cycle — two consecutive scan passes launch two
bump attempts (two task starts for the key), with the store untouched in
between, i.e. with no reconfiguration and no fresh bump signal.  Nothing
is sent and nothing is re-armed, but the retry happens automatically. -/
theorem claim_C5_counterexample :
    ((runLoop envNoSend 2
        (mkState [(1, mkGuildData (some 1) (some 2) (some 50))]) 100).trace.countP
      fun p => isTaskStartFor (1, "bump") p.2) = 2 ∧
    ((runLoop envNoSend 2
        (mkState [(1, mkGuildData (some 1) (some 2) (some 50))]) 100).trace.all
      fun p => !isSendChannelEff p.2 && !isPersistEff p.2) = true ∧
    (runLoop envNoSend 2
        (mkState [(1, mkGuildData (some 1) (some 2) (some 50))]) 100).state.guilds =
      [(1, mkGuildData (some 1) (some 2) (some 50))] :=
  ⟨by decide, by decide, by decide⟩

/-- Claim C5 amended: on fire without send permission the dispatcher logs
and aborts that cycle without sending and without re-arming (`bump`
returns immediately with the state unchanged and no exception); but
because the due `next_bump` is left in place, the poll loop automatically
re-attempts the bump on every subsequent scan pass until the destination
recovers, the configuration changes, or something else rewrites
`next_bump` — it does not stay quiet until an explicit reconfiguration or
fresh bump signal. -/
theorem claim_C5_amended (env : Env) (st : CogState) (now gid cid rid : Nat)
    (msg : String) (hcs : env.canSend cid = false) :
    bump env st now gid cid rid msg =
      ⟨[(now, Effect.logWarning)], st, now, none⟩ ∧
    ((runLoop envNoSend 2
        (mkState [(1, mkGuildData (some 1) (some 2) (some 50))]) 100).trace.countP
      fun p => isTaskStartFor (1, "bump") p.2) = 2 := by
  constructor
  · unfold bump
    simp [hcs]
  · decide

/-- Witness for the amended C5 at a concrete input. -/
theorem claim_C5_witness :
    bump envNoSend (mkState []) 100 1 1 2 "reminder" =
      ⟨[(100, Effect.logWarning)], mkState [], 100, none⟩ ∧
    ((runLoop envNoSend 2
        (mkState [(1, mkGuildData (some 1) (some 2) (some 50))]) 100).trace.countP
      fun p => isTaskStartFor (1, "bump") p.2) = 2 :=
  claim_C5_amended envNoSend (mkState []) 100 1 1 2 "reminder" rfl

/-- Counterexample to claim C3 as stated: guild 1's bump task fails with an
uncaught `HTTPException`, and the scheduler does not keep running for the
other keys — the exception re-raised by `await bump_task` terminates
`bump_check_loop` itself, so guild 2 (configured, resolvable, due) never
gets a task start nor a channel message, however much fuel the loop is
given. -/
theorem claim_C3_counterexample :
    (bump_check_loop envSendFails1 5
        (mkState [(1, mkGuildData (some 1) (some 2) (some 50)),
          (2, mkGuildData (some 2) (some 3) (some 50))]) 100).err =
      some PyError.httpException ∧
    ((bump_check_loop envSendFails1 5
        (mkState [(1, mkGuildData (some 1) (some 2) (some 50)),
          (2, mkGuildData (some 2) (some 3) (some 50))]) 100).trace.countP
      fun p => isTaskStartFor (2, "bump") p.2) = 0 ∧
    ((bump_check_loop envSendFails1 5
        (mkState [(1, mkGuildData (some 1) (some 2) (some 50)),
          (2, mkGuildData (some 2) (some 3) (some 50))]) 100).trace.all
      fun p => !sendsToChannel 2 p.2) = true :=
  ⟨by decide, by decide, by decide⟩

/-- Claim C3 amended: an unexpected exception in a scheduled task is
indeed caught and logged at the task boundary by `task_done_callback`
(cancellation is absorbed silently); but the scheduler does not stay up:
because `bump_check_loop` awaits each bump task inline, a task failure
re-raises into the scan, which stops at the failing guild and processes
none of the remaining guilds — failure is not isolated per key. -/
theorem claim_C3_amended :
    (∀ e, task_done_callback (TaskOutcome.failed e) = [Effect.logTaskFailed]) ∧
    task_done_callback TaskOutcome.cancelled = [] ∧
    (∀ env gid g rest st now e,
      (processGuild env st now gid g).err = some e →
      passGuilds env ((gid, g) :: rest) st now =
        processGuild env st now gid g) := by
  refine ⟨fun e => rfl, rfl, ?_⟩
  intro env gid g rest st now e h
  exact passGuilds_cons_err env gid g rest st now e h

/-- Witness for the amended C3 at a concrete input: the failing guild 1
halts the pass, which returns guild 1's outcome with guild 2 unvisited. -/
theorem claim_C3_witness :
    passGuilds envSendFails1
        [(1, mkGuildData (some 1) (some 2) (some 50)),
          (2, mkGuildData (some 2) (some 3) (some 50))]
        (mkState [(1, mkGuildData (some 1) (some 2) (some 50)),
          (2, mkGuildData (some 2) (some 3) (some 50))]) 100 =
      processGuild envSendFails1
        (mkState [(1, mkGuildData (some 1) (some 2) (some 50)),
          (2, mkGuildData (some 2) (some 3) (some 50))]) 100 1
        (mkGuildData (some 1) (some 2) (some 50)) :=
  claim_C3_amended.2.2 envSendFails1 1 (mkGuildData (some 1) (some 2) (some 50))
    [(2, mkGuildData (some 2) (some 3) (some 50))]
    (mkState [(1, mkGuildData (some 1) (some 2) (some 50)),
      (2, mkGuildData (some 2) (some 3) (some 50))]) 100
    PyError.httpException (by decide)

/-! ### Claim C7: fire time after a restart -/

theorem firstSendTime_cons_not (t : Nat) (e : Effect)
    (tr : List (Nat × Effect)) (h : isSendChannelEff e = false) :
    firstSendTime ((t, e) :: tr) = firstSendTime tr := by
  simp [firstSendTime, h]

theorem firstSendTime_append_some (tr1 tr2 : List (Nat × Effect)) (t : Nat)
    (h : firstSendTime tr1 = some t) :
    firstSendTime (tr1 ++ tr2) = some t := by
  induction tr1 with
  | nil => simp [firstSendTime] at h
  | cons p tr ih =>
    obtain ⟨pt, pe⟩ := p
    rw [List.cons_append]
    by_cases hs : isSendChannelEff pe
    · simp only [firstSendTime, hs, if_true] at h ⊢
      exact h
    · simp only [firstSendTime, hs, if_false] at h ⊢
      exact ih h

theorem bump_firstSendTime (env : Env) (st : CogState) (now gid cid rid : Nat)
    (msg : String) (hcs : env.canSend cid = true)
    (hso : env.sendOutcome cid = none) :
    firstSendTime (bump env st now gid cid rid msg).trace = some now := by
  unfold bump
  rw [hso]
  cases hrm : env.roleMembers rid with
  | nil =>
    rw [notifyMembers_nil]
    simp [hcs, inBumpScope_timedelta, firstSendTime, isSendChannelEff]
  | cons m rest =>
    rw [notifyMembers_cons]
    simp [hcs, firstSendTime, isSendChannelEff]

theorem dispatchBump_firstSendTime (env : Env) (st : CogState)
    (now gid cid rid : Nat) (msg : String) (hcs : env.canSend cid = true)
    (hso : env.sendOutcome cid = none) :
    firstSendTime (dispatchBump env st now gid cid rid msg).trace = some now := by
  have hb := bump_firstSendTime env
    ⟨st.guilds, setTask st.bump_tasks (gid, "bump") st.nextTaskId,
      st.nextTaskId + 1⟩ now gid cid rid msg hcs hso
  simp only [dispatchBump]
  split
  · rw [firstSendTime_cons_not now
        (Effect.registerTask gid "bump" st.nextTaskId) _ rfl,
      firstSendTime_cons_not now (Effect.taskStart gid "bump") _ rfl]
    exact firstSendTime_append_some _ _ _ hb
  · rw [List.cons_append, List.cons_append,
      firstSendTime_cons_not now
        (Effect.registerTask gid "bump" st.nextTaskId) _ rfl,
      firstSendTime_cons_not now (Effect.taskStart gid "bump") _ rfl,
      List.append_assoc]
    exact firstSendTime_append_some _ _ _ hb

/-- Counterexample to claim C7 as stated ("for every guild with a
persisted `next_bump` equal to `T` ... fires at `max(T, now)`"): the
guarantee fails as soon as the store holds other guilds.  (a) A preceding
guild with a future `next_bump` makes the scan sleep inline for the whole
remaining delta (line 236), so a guild whose `next_bump = 50` is long
overdue at startup (`readyAt = 100`) first fires at time 5000, not at
`max 50 100 = 100` — hours late instead of within seconds of startup.
(b) A preceding due guild's bump task fails (the `timedelta` `NameError`
of C1 on every successful-send path) and the re-raise terminates the scan
loop, so the overdue guild behind it never fires at all, however much
fuel the loop gets. -/
theorem claim_C7_counterexample :
    firstSendTime (bump_check_loop envOk 2
        (mkState [(1, mkGuildData (some 1) (some 2) (some 5000)),
          (2, mkGuildData (some 3) (some 4) (some 50))]) 100).trace =
      some 5000 ∧
    (5000 : Nat) ≠ max 50 100 ∧
    (bump_check_loop envOk 9
        (mkState [(1, mkGuildData (some 1) (some 2) (some 50)),
          (2, mkGuildData (some 3) (some 4) (some 50))]) 100).err =
      some (PyError.nameError "timedelta") ∧
    ((bump_check_loop envOk 9
        (mkState [(1, mkGuildData (some 1) (some 2) (some 50)),
          (2, mkGuildData (some 3) (some 4) (some 50))]) 100).trace.all
      fun p => !sendsToChannel 3 p.2) = true :=
  ⟨by decide, by decide, by decide, by decide⟩

/-- Claim C7 amended: the `max(T, readyAt)` fire time holds for a guild
that is the sole entry of the store: with its channel and role configured
and resolvable, send permission present and the send succeeding, the scan
started at the ready signal `readyAt` posts the reminder exactly at
`max T readyAt` — an overdue `T` fires immediately at `readyAt`, a future
`T` fires at `T` itself after sleeping only the remaining delta, never a
fresh 2-hour wait.  The restriction to a single-guild store is forced by
the counterexample: with further guilds present, the scan's inline
per-guild sleeping and its death on a preceding guild's bump failure
delay or prevent the fire. -/
theorem claim_C7_restart_fires_at_max (env : Env)
    (gid cid rid T readyAt : Nat) (msg ty : String) (lockf cleanf : Bool)
    (hgid : gid ≠ 0) (hcid : cid ≠ 0) (hch : env.getChannel cid = true)
    (hrid : rid ≠ 0) (hrole : env.getRole rid = true)
    (hcs : env.canSend cid = true) (hso : env.sendOutcome cid = none) :
    firstSendTime (bump_check_loop env 2
        (mkState [(gid, ⟨some cid, some rid, msg, ty, some T, lockf, cleanf⟩)])
        readyAt).trace = some (max T readyAt) := by
  set g0 : GuildData := ⟨some cid, some rid, msg, ty, some T, lockf, cleanf⟩
    with hg0
  set st0 : CogState := mkState [(gid, g0)] with hst0
  have hrr : roleResolves env g0 = true := by
    simp [roleResolves, hg0, hrole, hrid]
  have hgd : st0.guilds = [(gid, g0)] := rfl
  have hrole0 : g0.role.getD 0 = rid := rfl
  have hmsg0 : g0.message = msg := rfl
  unfold bump_check_loop
  by_cases hT : T ≤ readyAt
  · -- already due: fires at readyAt on the first pass
    have hpg := processGuild_dispatch env st0 readyAt gid g0 cid hgid rfl hcid
      hch hrr (Or.inr ⟨T, rfl, hT⟩)
    rw [hrole0, hmsg0] at hpg
    obtain ⟨e, he⟩ := dispatchBump_err_isSome env st0 readyAt gid cid rid msg
      hcs hso
    have hperr : (processGuild env st0 readyAt gid g0).err = some e := by
      rw [hpg]; exact he
    have hpass := passGuilds_cons_err env gid g0 [] st0 readyAt e hperr
    have hloop : runLoop env 2 st0 readyAt =
        passGuilds env st0.guilds st0 readyAt :=
      runLoop_succ_err env 1 st0 readyAt e (by rw [hgd, hpass]; exact hperr)
    rw [hloop, hgd, hpass, hpg, Nat.max_eq_right hT]
    exact dispatchBump_firstSendTime env st0 readyAt gid cid rid msg hcs hso
  · -- still pending: pass 1 sleeps until `T`, pass 2 fires at `T`
    have hps := processGuild_sleep env st0 readyAt gid g0 cid T hgid rfl hcid
      hch hrr rfl hT
    have hpass1 : passGuilds env [(gid, g0)] st0 readyAt =
        ⟨[(readyAt, Effect.sleep (T - readyAt))], st0, T, none⟩ := by
      rw [passGuilds_cons_ok env gid g0 [] st0 readyAt (by rw [hps]), hps]
      simp [passGuilds_nil]
    have hloop1 : runLoop env 2 st0 readyAt =
        ⟨(passGuilds env st0.guilds st0 readyAt).trace ++
            (runLoop env 1 (passGuilds env st0.guilds st0 readyAt).state
              (passGuilds env st0.guilds st0 readyAt).clock).trace,
          (runLoop env 1 (passGuilds env st0.guilds st0 readyAt).state
            (passGuilds env st0.guilds st0 readyAt).clock).state,
          (runLoop env 1 (passGuilds env st0.guilds st0 readyAt).state
            (passGuilds env st0.guilds st0 readyAt).clock).clock,
          (runLoop env 1 (passGuilds env st0.guilds st0 readyAt).state
            (passGuilds env st0.guilds st0 readyAt).clock).err⟩ :=
      runLoop_succ_ok env 1 st0 readyAt (by rw [hgd, hpass1])
    rw [hgd] at hloop1
    -- the second pass, starting at clock `T`
    have hpg2 := processGuild_dispatch env st0 T gid g0 cid hgid rfl hcid
      hch hrr (Or.inr ⟨T, rfl, Nat.le_refl T⟩)
    rw [hrole0, hmsg0] at hpg2
    obtain ⟨e, he⟩ := dispatchBump_err_isSome env st0 T gid cid rid msg hcs hso
    have hperr2 : (processGuild env st0 T gid g0).err = some e := by
      rw [hpg2]; exact he
    have hpass2 := passGuilds_cons_err env gid g0 [] st0 T e hperr2
    have hloop2 : runLoop env 1 st0 T = passGuilds env st0.guilds st0 T :=
      runLoop_succ_err env 0 st0 T e (by rw [hgd, hpass2]; exact hperr2)
    rw [hloop1, hpass1]
    have hmax : max T readyAt = T :=
      Nat.max_eq_left (Nat.le_of_lt (Nat.lt_of_not_le hT))
    rw [hmax]
    dsimp only
    rw [List.singleton_append,
      firstSendTime_cons_not readyAt (Effect.sleep (T - readyAt)) _ rfl,
      hloop2, hgd, hpass2, hpg2]
    exact dispatchBump_firstSendTime env st0 T gid cid rid msg hcs hso

/-- Witness for the amended C7 at a concrete input: a single-guild store
with `next_bump` 50 and the ready signal at 100 (overdue) fires at
`max 50 100 = 100`, immediately at startup. -/
theorem claim_C7_witness :
    firstSendTime (bump_check_loop envOk 2
        (mkState [(1, ⟨some 1, some 2, "m", "t", some 50, false, false⟩)])
        100).trace = some (max 50 100) :=
  claim_C7_restart_fires_at_max envOk 1 1 2 50 100 "m" "t" false false
    (by decide) (by decide) rfl (by decide) rfl rfl rfl

/-! ### Claim C2: live tasks per key -/

theorem liveCount_nil (k : Nat × String) : liveCount k [] = 0 := rfl

theorem liveCount_cons (k : Nat × String) (p : Nat × Effect)
    (tr : List (Nat × Effect)) :
    liveCount k (p :: tr) = taskDelta k p.2 + liveCount k tr := by
  simp [liveCount]

theorem liveCount_append (k : Nat × String) (tr1 tr2 : List (Nat × Effect)) :
    liveCount k (tr1 ++ tr2) = liveCount k tr1 + liveCount k tr2 := by
  simp [liveCount]

theorem liveOk_cons (k : Nat × String) (cur : Int) (p : Nat × Effect)
    (tr : List (Nat × Effect)) :
    liveOk k cur (p :: tr) =
      (((cur + taskDelta k p.2) == 0 || (cur + taskDelta k p.2) == 1) &&
        liveOk k (cur + taskDelta k p.2) tr) := rfl

theorem liveOk_append (k : Nat × String) (c : Int)
    (tr1 tr2 : List (Nat × Effect)) :
    liveOk k c (tr1 ++ tr2) =
      (liveOk k c tr1 && liveOk k (c + liveCount k tr1) tr2) := by
  induction tr1 generalizing c with
  | nil => simp [liveOk, liveCount]
  | cons p tr ih =>
    rw [List.cons_append, liveOk_cons, liveOk_cons, ih, liveCount_cons,
      Bool.and_assoc, add_assoc]

theorem liveOk_of_zero (k : Nat × String) (tr : List (Nat × Effect)) :
    ∀ c : Int, (∀ p ∈ tr, taskDelta k p.2 = 0) → (c = 0 ∨ c = 1) →
      liveOk k c tr = true := by
  induction tr with
  | nil => intro c _ _; rfl
  | cons p rest ih =>
    intro c h hc
    have hp := h p (List.mem_cons_self p rest)
    rw [liveOk_cons, hp, add_zero,
      ih c (fun q hq => h q (List.mem_cons_of_mem p hq)) hc, Bool.and_true]
    rcases hc with rfl | rfl <;> decide

theorem liveCount_of_zero (k : Nat × String) (tr : List (Nat × Effect))
    (h : ∀ p ∈ tr, taskDelta k p.2 = 0) : liveCount k tr = 0 := by
  induction tr with
  | nil => rfl
  | cons p rest ih =>
    rw [liveCount_cons, h p (List.mem_cons_self p rest), zero_add,
      ih (fun q hq => h q (List.mem_cons_of_mem p hq))]

theorem KeyBalanced_of_zero (k : Nat × String) (tr : List (Nat × Effect))
    (h : ∀ p ∈ tr, taskDelta k p.2 = 0) : KeyBalanced k tr :=
  ⟨liveOk_of_zero k tr 0 h (Or.inl rfl), liveCount_of_zero k tr h⟩

theorem KeyBalanced_append (k : Nat × String) (tr1 tr2 : List (Nat × Effect))
    (h1 : KeyBalanced k tr1) (h2 : KeyBalanced k tr2) :
    KeyBalanced k (tr1 ++ tr2) := by
  obtain ⟨ho1, hc1⟩ := h1
  obtain ⟨ho2, hc2⟩ := h2
  constructor
  · rw [liveOk_append, ho1, hc1, zero_add, ho2]
    rfl
  · rw [liveCount_append, hc1, hc2]
    decide

theorem KeyBalanced_cons_zero (k : Nat × String) (p : Nat × Effect)
    (tr : List (Nat × Effect)) (hp : taskDelta k p.2 = 0)
    (h : KeyBalanced k tr) : KeyBalanced k (p :: tr) := by
  obtain ⟨ho, hc⟩ := h
  constructor
  · rw [liveOk_cons, hp, add_zero, ho]
    rfl
  · rw [liveCount_cons, hp, hc]
    decide

theorem KeyBalanced_wrap (g : Nat) (s : String) (t1 t2 : Nat)
    (inner : List (Nat × Effect))
    (h : ∀ p ∈ inner, taskDelta (g, s) p.2 = 0) :
    KeyBalanced (g, s)
      ((t1, Effect.taskStart g s) ::
        (inner ++ [(t2, Effect.taskEnd g s)])) := by
  have hds : taskDelta (g, s) (Effect.taskStart g s) = 1 := by
    simp [taskDelta]
  have hde : taskDelta (g, s) (Effect.taskEnd g s) = -1 := by
    simp [taskDelta]
  have hinner0 : liveCount (g, s) inner = 0 := liveCount_of_zero _ _ h
  constructor
  · rw [liveOk_cons]
    simp only [hds, zero_add]
    rw [liveOk_append, hinner0, liveOk_of_zero _ _ 1 h (Or.inr rfl),
      liveOk_cons]
    simp [hde, liveOk]
  · rw [liveCount_cons, liveCount_append, hinner0, liveCount_cons,
      liveCount_nil, hds, hde]
    rfl

theorem taskDelta_start_ne (k : Nat × String) (g : Nat) (s : String)
    (h : (g, s) ≠ k) : taskDelta k (Effect.taskStart g s) = 0 := by
  simp [taskDelta, h]

theorem taskDelta_end_ne (k : Nat × String) (g : Nat) (s : String)
    (h : (g, s) ≠ k) : taskDelta k (Effect.taskEnd g s) = 0 := by
  simp [taskDelta, h]

theorem bump_keyBalanced (env : Env) (st : CogState) (now gid cid rid : Nat)
    (msg : String) (k : Nat × String) :
    KeyBalanced k (bump env st now gid cid rid msg).trace := by
  by_cases hk : k = (gid, "wait")
  case neg =>
    have hk' : ((gid, "wait") : Nat × String) ≠ k := fun hh => hk hh.symm
    apply KeyBalanced_of_zero
    intro p hp
    have h := bump_trace_effects env st now gid cid rid msg p hp
    rcases h with h | h | h | h | h | h <;> rw [h]
    · rfl
    · rfl
    · rfl
    · rfl
    · exact taskDelta_start_ne _ _ _ hk'
    · exact taskDelta_end_ne _ _ _ hk'
  case pos =>
    subst hk
    unfold bump
    by_cases hcs : env.canSend cid = false
    · rw [if_pos hcs]
      apply KeyBalanced_of_zero
      intro p hp
      simp at hp
      rw [hp]
      rfl
    · rw [if_neg hcs]
      cases hso : env.sendOutcome cid with
      | some e =>
        cases e with
        | forbidden =>
          apply KeyBalanced_of_zero
          intro p hp
          simp at hp
          rcases hp with hp | hp <;> rw [hp] <;> rfl
        | nameError n =>
          apply KeyBalanced_of_zero
          intro p hp
          simp at hp
          rw [hp]
          rfl
        | httpException =>
          apply KeyBalanced_of_zero
          intro p hp
          simp at hp
          rw [hp]
          rfl
      | none =>
        cases hrm : env.roleMembers rid with
        | cons m rest =>
          rw [notifyMembers_cons]
          dsimp only
          apply KeyBalanced_append
          · apply KeyBalanced_of_zero
            intro p hp
            simp at hp
            rcases hp with hp | hp | hp <;> rw [hp] <;> rfl
          · apply KeyBalanced_wrap
            intro p hp
            rw [wait_for_bump_trace_effects env now p hp]
            rfl
        | nil =>
          rw [notifyMembers_nil]
          dsimp only
          rw [if_neg (by rw [inBumpScope_timedelta]; exact Bool.false_ne_true)]
          simp only [List.map_nil, List.append_nil]
          apply KeyBalanced_append
          · apply KeyBalanced_of_zero
            intro p hp
            simp at hp
            rcases hp with hp | hp | hp <;> rw [hp] <;> rfl
          · apply KeyBalanced_wrap
            intro p hp
            rw [wait_for_bump_trace_effects env now p hp]
            rfl

theorem dispatchBump_keyBalanced (env : Env) (st : CogState)
    (now gid cid rid : Nat) (msg : String) (k : Nat × String) :
    KeyBalanced k (dispatchBump env st now gid cid rid msg).trace := by
  simp only [dispatchBump]
  by_cases hk : k = (gid, "bump")
  · subst hk
    have hz : ∀ st' : CogState,
        ∀ p ∈ (bump env st' now gid cid rid msg).trace,
          taskDelta (gid, "bump") p.2 = 0 := by
      intro st' p hp
      have h := bump_trace_effects env st' now gid cid rid msg p hp
      have hne : ((gid, "wait") : Nat × String) ≠ (gid, "bump") := by
        intro hh
        injection hh with h1 h2
        exact absurd h2 (by decide)
      rcases h with h | h | h | h | h | h <;> rw [h]
      · rfl
      · rfl
      · rfl
      · rfl
      · exact taskDelta_start_ne _ _ _ hne
      · exact taskDelta_end_ne _ _ _ hne
    split
    · exact KeyBalanced_cons_zero _ _ _ rfl
        (KeyBalanced_wrap gid "bump" now _ _ (hz _))
    · exact KeyBalanced_append _ _ _
        (KeyBalanced_cons_zero _ _ _ rfl
          (KeyBalanced_wrap gid "bump" now _ _ (hz _)))
        (KeyBalanced_of_zero _ _ (by
          intro p hp
          simp at hp
          rw [hp]
          rfl))
  · have hk' : ((gid, "bump") : Nat × String) ≠ k := fun hh => hk hh.symm
    have hend : KeyBalanced k
        [((bump env ⟨st.guilds, setTask st.bump_tasks (gid, "bump")
            st.nextTaskId, st.nextTaskId + 1⟩ now gid cid rid msg).clock,
          Effect.taskEnd gid "bump")] := by
      apply KeyBalanced_of_zero
      intro p hp
      simp at hp
      rw [hp]
      exact taskDelta_end_ne _ _ _ hk'
    split
    · exact KeyBalanced_cons_zero _ _ _ rfl
        (KeyBalanced_cons_zero _ _ _ (taskDelta_start_ne _ _ _ hk')
          (KeyBalanced_append _ _ _
            (bump_keyBalanced env _ now gid cid rid msg k) hend))
    · exact KeyBalanced_append _ _ _
        (KeyBalanced_cons_zero _ _ _ rfl
          (KeyBalanced_cons_zero _ _ _ (taskDelta_start_ne _ _ _ hk')
            (KeyBalanced_append _ _ _
              (bump_keyBalanced env _ now gid cid rid msg k) hend)))
        (KeyBalanced_of_zero _ _ (by
          intro p hp
          simp at hp
          rw [hp]
          rfl))

theorem processGuild_keyBalanced (env : Env) (st : CogState) (now gid : Nat)
    (g : GuildData) (k : Nat × String) :
    KeyBalanced k (processGuild env st now gid g).trace := by
  unfold processGuild
  repeat' split
  all_goals
    first
      | exact dispatchBump_keyBalanced env st now gid _ _ g.message k
      | (apply KeyBalanced_of_zero; intro p hp; simp at hp; rw [hp]; rfl)
      | (apply KeyBalanced_of_zero; intro p hp; simp at hp)

theorem passGuilds_keyBalanced (env : Env) (gs : List (Nat × GuildData))
    (st : CogState) (now : Nat) (k : Nat × String) :
    KeyBalanced k (passGuilds env gs st now).trace := by
  induction gs generalizing st now with
  | nil =>
    apply KeyBalanced_of_zero
    intro p hp
    simp [passGuilds] at hp
  | cons hd tl ih =>
    obtain ⟨gid, g⟩ := hd
    simp only [passGuilds]
    split
    · exact processGuild_keyBalanced env st now gid g k
    · exact KeyBalanced_append _ _ _
        (processGuild_keyBalanced env st now gid g k) (ih _ _)

theorem runLoop_keyBalanced (env : Env) (fuel : Nat) (st : CogState)
    (now : Nat) (k : Nat × String) :
    KeyBalanced k (runLoop env fuel st now).trace := by
  induction fuel generalizing st now with
  | zero =>
    apply KeyBalanced_of_zero
    intro p hp
    simp [runLoop] at hp
  | succ n ih =>
    simp only [runLoop]
    split
    · exact passGuilds_keyBalanced env st.guilds st now k
    · exact KeyBalanced_append _ _ _
        (passGuilds_keyBalanced env st.guilds st now k) (ih _ _)

/-- Counterexample to claim C2 as stated: arming never cancels anything.
Starting a second bump attempt for the same key registers a new task over
the previous registry entry — after pass one the registry maps
`(1, "bump")` to task 0, pass two registers task 1 under the same key, and
the whole two-pass trace contains two registrations for the key and not a
single cancellation.  (The registry key is `(guild_id, slot)`, not
`(guildId, channelId)`.) -/
theorem claim_C2_counterexample :
    ((runLoop envNoSend 2
        (mkState [(1, mkGuildData (some 1) (some 2) (some 50))]) 100).trace.countP
      fun p => isRegisterFor (1, "bump") p.2) = 2 ∧
    lookupTask (runLoop envNoSend 1
        (mkState [(1, mkGuildData (some 1) (some 2) (some 50))]) 100).state.bump_tasks
      (1, "bump") = some 0 ∧
    ((runLoop envNoSend 2
        (mkState [(1, mkGuildData (some 1) (some 2) (some 50))]) 100).trace.all
      fun p => !isCancelEff p.2) = true :=
  ⟨by decide, by decide, by decide⟩

/-- Claim C2 amended: at most one timer task per key is live at any
instant — at every prefix of the scheduler trace the live count of each
`(guild_id, slot)` key stays in `{0, 1}` — but not because arming cancels
a predecessor: the scheduler never emits a cancellation at all (task
registration is a plain dictionary overwrite); uniqueness holds because
each created task is awaited to completion before the loop can create the
next one for that key. -/
theorem claim_C2_at_most_one_live_task :
    (∀ env fuel st readyAt k,
      liveOk k 0 (bump_check_loop env fuel st readyAt).trace = true) ∧
    (∀ env fuel st readyAt,
      ((bump_check_loop env fuel st readyAt).trace.all
        fun p => !isCancelEff p.2) = true) := by
  constructor
  · intro env fuel st readyAt k
    exact (runLoop_keyBalanced env fuel st readyAt k).1
  · intro env fuel st readyAt
    have hb := traceAll_bump (fun e => !isCancelEff e) rfl rfl (fun _ _ => rfl)
      (fun _ _ => rfl) (fun _ => rfl) (fun _ => rfl)
    have hd := traceAll_dispatchBump (fun e => !isCancelEff e) rfl
      (fun _ _ => rfl) (fun _ => rfl) (fun _ => rfl) hb
    have hp := traceAll_processGuild (fun e => !isCancelEff e) rfl
      (fun _ => rfl) hd
    have hpass := traceAll_passGuilds (fun e => !isCancelEff e) hp
    exact traceAll_runLoop (fun e => !isCancelEff e) hpass env fuel st readyAt
